import Mathlib

/-!
Verification of the OnionTalks speech-to-text application against its
design specification.  The development shallowly embeds the session-state
logic of `src/OnionTalks.py`: the transcription driver
`process_and_transcribe_buffer` (lines 140-205), the pipeline guard in
`main` (lines 98-104), the reset handler (lines 128-133), the transcript
download condition (line 117), and the cached model loader
`load_whisper_model` (lines 23-38).

External effects (the temp-file write, the Whisper model's `transcribe`
call, and `os.remove`) are modelled by an environment recording the
outcome of each effect for the invocation under study; exceptions raised
by an effect appear as explicit `err` outcomes, and the Python
`try/except/finally` structure is embedded as explicit control flow over
those outcomes.  The creation of the named temporary file itself
(`tempfile.NamedTemporaryFile`, line 179) is assumed to succeed: once the
driver's body starts, the file exists on disk.
-/

set_option linter.unusedVariables false

namespace OnionTalks

/-- ASCII whitespace as recognised by Python's `str.strip()` (the
characters relevant to the embedding). -/
def isPySpace (c : Char) : Bool :=
  c == ' ' || c == '\t' || c == '\n' || c == '\r' || c == '\x0b' || c == '\x0c'

/-- Strip `isPySpace` characters from both ends of a character list. -/
def stripList (l : List Char) : List Char :=
  ((l.dropWhile isPySpace).reverse.dropWhile isPySpace).reverse

/-- Python's `transcribed_text.strip()` as used at lines 188-189. -/
def pyStrip (s : String) : String :=
  String.mk (stripList s.data)

/-- The three per-session state fields initialised at lines 62-67:
`st.session_state.transcript`, `st.session_state.audio_data`,
`st.session_state.transcribed`.  Audio byte buffers are lists of bytes. -/
structure SessionState where
  transcript : String
  audio_data : Option (List Nat)
  transcribed : Bool
deriving DecidableEq

/-- Outcome of `temp_audio_file.write(audio_data)` (line 180): success, or
an exception carrying a message. -/
inductive WriteOutcome where
  | ok : WriteOutcome
  | err : String → WriteOutcome
deriving DecidableEq

/-- Outcome of `model.transcribe(path)["text"]` (line 185): the returned
text, or an exception carrying a message. -/
inductive TranscribeOutcome where
  | ok : String → TranscribeOutcome
  | err : String → TranscribeOutcome
deriving DecidableEq

/-- Outcome of `os.remove(temp_audio_file_path)` (line 201). -/
inductive RemoveOutcome where
  | ok : RemoveOutcome
  | err : String → RemoveOutcome
deriving DecidableEq

/-- Environment fixing the behaviour of the external effects during one
driver invocation.  `write` and `transcribe` may depend on the audio
bytes handed to the driver (the model's behaviour is a function of the
file contents); `remove` is the outcome of the single cleanup call. -/
structure Env where
  write : List Nat → WriteOutcome
  transcribe : List Nat → TranscribeOutcome
  remove : RemoveOutcome

/-- State after executing the `try` body (lines 177-192): whether the
local variable `temp_audio_file_path` was assigned (it is assigned at
line 181, only after a successful write), the session transcript as last
assigned, the uncaught exception propagating out of the body if any, and
whether `model.transcribe` was invoked. -/
structure BodyResult where
  pathSet : Bool
  transcript : String
  exc : Option String
  modelCalled : Bool
deriving DecidableEq

/-- The `try` body of `process_and_transcribe_buffer` (lines 177-192).
The transcript starts empty because line 157 assigns
`st.session_state.transcript = ""` before the `try`.  A failing write
raises before line 181, so `temp_audio_file_path` stays `None`; a failing
`transcribe` raises after it.  Line 188 guards the transcript update with
Python truthiness: `if transcribed_text and transcribed_text.strip():`. -/
def runBody (env : Env) (audio_data : List Nat) : BodyResult :=
  match env.write audio_data with
  | WriteOutcome.err m => { pathSet := false, transcript := "", exc := some m, modelCalled := false }
  | WriteOutcome.ok =>
    match env.transcribe audio_data with
    | TranscribeOutcome.err m =>
        { pathSet := true, transcript := "", exc := some m, modelCalled := true }
    | TranscribeOutcome.ok text =>
        if text != "" && pyStrip text != "" then
          { pathSet := true, transcript := pyStrip text, exc := none, modelCalled := true }
        else
          { pathSet := true, transcript := "", exc := none, modelCalled := true }

/-- Observable outcome of one driver invocation: the session transcript
after the call, the `st.error` message if the `except` clause ran (line
195), whether the temporary file still exists on disk after the `finally`
clause (lines 197-204), and whether the model's `transcribe` was called. -/
structure DriverOutcome where
  transcript : String
  errorReported : Option String
  tempFileExists : Bool
  modelCalled : Bool
deriving DecidableEq

/-- `process_and_transcribe_buffer` (lines 140-205).  The body runs; any
exception is caught by the `except` clause and reported via
`st.error(f"Transcription error: {e}")`; the `finally` clause removes the
temporary file only when `temp_audio_file_path` is set and the file
exists, and a failing `os.remove` is swallowed (lines 199-204). -/
def process_and_transcribe_buffer (env : Env) (audio_data : List Nat) : DriverOutcome :=
  let b := runBody env audio_data
  let removed :=
    if b.pathSet then
      match env.remove with
      | RemoveOutcome.ok => true
      | RemoveOutcome.err _ => false
    else false
  { transcript := b.transcript
    errorReported := b.exc.map (fun m => "Transcription error: " ++ m)
    tempFileExists := !removed
    modelCalled := b.modelCalled }

/-- The driver's effect on the session state: `process_and_transcribe_buffer`
mutates only `st.session_state.transcript` (lines 157 and 189), so the
session after the call carries the driver's final transcript. -/
def driverOnState (env : Env) (audio_data : List Nat) (s : SessionState) :
    SessionState × DriverOutcome :=
  let r := process_and_transcribe_buffer env audio_data
  ({ s with transcript := r.transcript }, r)

/-- The pipeline guard of `main` (lines 98-104):
`if audio_recording and not st.session_state.transcribed:` read the bytes
and store them in `audio_data`; then `if audio_data:` (non-empty buffer)
set `transcribed = True` and invoke the driver.  Returns the session
state after the run and the driver outcome when the driver ran. -/
def pipelineStep (s : SessionState) (audio_recording : Option (List Nat)) (env : Env) :
    SessionState × Option DriverOutcome :=
  match audio_recording with
  | none => (s, none)
  | some buf =>
    if s.transcribed then (s, none)
    else
      let s1 := { s with audio_data := some buf }
      if buf.isEmpty then (s1, none)
      else
        let r := process_and_transcribe_buffer env buf
        ({ s1 with transcribed := true, transcript := r.transcript }, some r)

/-- The reset handler (lines 128-133): the "Repeat transcription" button
clears the three session fields. -/
def resetState (s : SessionState) : SessionState :=
  let s1 := { s with transcript := "" }
  let s2 := { s1 with audio_data := none }
  { s2 with transcribed := false }

/-- Line 117: the transcript download button is shown exactly when
`st.session_state.transcribed` holds. -/
def transcriptDownloadOffered (s : SessionState) : Bool :=
  s.transcribed

/-- Process-wide cache backing `@st.cache_resource` on
`load_whisper_model`: a table from model-size identifiers to handles
(handles are allocation identifiers, standing for reference identity),
the next fresh handle, and the number of underlying `whisper.load_model`
calls performed so far. -/
structure ModelCache where
  table : List (String × Nat)
  nextHandle : Nat
  loads : Nat
deriving DecidableEq

/-- Modelled from the spec: the implementation of `@st.cache_resource`
(Streamlit library code, not in src) memoizes `load_whisper_model`
(lines 23-38) per `model_size` argument for the lifetime of the process,
so a cache hit returns the previously loaded handle and only a cache miss
performs the underlying `whisper.load_model` call. -/
def load_whisper_model (c : ModelCache) (model_size : String) : Nat × ModelCache :=
  match c.table.lookup model_size with
  | some h => (h, c)
  | none =>
      (c.nextHandle,
       { table := (model_size, c.nextHandle) :: c.table
         nextHandle := c.nextHandle + 1
         loads := c.loads + 1 })

/-- A session holding a non-empty prior transcript. -/
def sHello : SessionState :=
  { transcript := "hello", audio_data := none, transcribed := false }

/-- A fresh session (the initial values of lines 62-67). -/
def sFresh : SessionState :=
  { transcript := "", audio_data := none, transcribed := false }

/-- A session holding a previous recording, not yet transcribed. -/
def sPriorAudio : SessionState :=
  { transcript := "", audio_data := some [5, 6], transcribed := false }

/-- A session whose recording has already been transcribed. -/
def sDone : SessionState :=
  { transcript := "hi", audio_data := some [1], transcribed := true }

/-- Environment in which every effect succeeds and the model returns the
given text. -/
def envOk (text : String) : Env :=
  { write := fun _ => WriteOutcome.ok
    transcribe := fun _ => TranscribeOutcome.ok text
    remove := RemoveOutcome.ok }

/-- Environment in which the model's `transcribe` call raises. -/
def envTranscribeFails : Env :=
  { write := fun _ => WriteOutcome.ok
    transcribe := fun _ => TranscribeOutcome.err "inference failed"
    remove := RemoveOutcome.ok }

/-- Environment in which the temp-file write raises. -/
def envWriteFails : Env :=
  { write := fun _ => WriteOutcome.err "disk full"
    transcribe := fun _ => TranscribeOutcome.ok "hi"
    remove := RemoveOutcome.ok }

/-- Every element surviving `dropWhile p` at the head fails `p`. -/
lemma head_of_dropWhile_not {α : Type} (p : α → Bool) (l : List α) :
    ∀ a, (l.dropWhile p).head? = some a → p a = false := by
  induction l with
  | nil => intro a h; simp [List.dropWhile] at h
  | cons x t ih =>
    intro a h
    by_cases hx : p x = true
    · rw [List.dropWhile_cons_of_pos hx] at h
      exact ih a h
    · rw [List.dropWhile_cons_of_neg hx] at h
      simp only [List.head?_cons, Option.some.injEq] at h
      rw [← h]
      exact Bool.eq_false_iff.mpr hx

/-- A list whose head (if any) fails `p` is untouched by `dropWhile p`. -/
lemma dropWhile_eq_self_of_head {α : Type} (p : α → Bool) (l : List α)
    (h : ∀ a, l.head? = some a → p a = false) : l.dropWhile p = l := by
  cases l with
  | nil => rfl
  | cons x t =>
    have hx : p x = false := h x rfl
    rw [List.dropWhile_cons_of_neg (by simp [hx])]

/-- `dropWhile` is idempotent. -/
lemma dropWhile_dropWhile {α : Type} (p : α → Bool) (l : List α) :
    (l.dropWhile p).dropWhile p = l.dropWhile p :=
  dropWhile_eq_self_of_head p _ (head_of_dropWhile_not p l)

/-- When `dropWhile p` leaves something, the last element is unchanged. -/
lemma getLast?_dropWhile {α : Type} (p : α → Bool) (l : List α)
    (h : l.dropWhile p ≠ []) : (l.dropWhile p).getLast? = l.getLast? := by
  induction l with
  | nil => exact absurd rfl h
  | cons x t ih =>
    by_cases hx : p x = true
    · rw [List.dropWhile_cons_of_pos hx] at h ⊢
      have ht : t ≠ [] := by
        intro he
        rw [he] at h
        exact h rfl
      rw [ih h]
      cases t with
      | nil => exact absurd rfl ht
      | cons b t2 => rw [List.getLast?_cons_cons]
    · rw [List.dropWhile_cons_of_neg hx]

/-- Two-sided stripping is idempotent. -/
lemma stripList_idem (l : List Char) : stripList (stripList l) = stripList l := by
  unfold stripList
  have h1 : ((l.dropWhile isPySpace).reverse.dropWhile isPySpace).reverse.dropWhile isPySpace
      = ((l.dropWhile isPySpace).reverse.dropWhile isPySpace).reverse := by
    apply dropWhile_eq_self_of_head
    intro a ha
    rw [List.head?_reverse] at ha
    have hne : (l.dropWhile isPySpace).reverse.dropWhile isPySpace ≠ [] := by
      intro he
      rw [he] at ha
      simp at ha
    rw [getLast?_dropWhile _ _ hne, List.getLast?_reverse] at ha
    exact head_of_dropWhile_not isPySpace l a ha
  rw [h1, List.reverse_reverse, dropWhile_dropWhile]

/-- Python `strip` is idempotent. -/
lemma pyStrip_idem (s : String) : pyStrip (pyStrip s) = pyStrip s := by
  unfold pyStrip
  exact congrArg String.mk (stripList_idem s.data)

/-- Stripping the empty string gives the empty string. -/
lemma pyStrip_empty : pyStrip "" = "" := rfl

/-- A string stripping to something non-empty is itself non-empty. -/
lemma ne_empty_of_pyStrip_ne_empty {s : String} (h : pyStrip s ≠ "") : s ≠ "" := by
  intro he
  rw [he] at h
  exact h pyStrip_empty

/-- When everything in the driver body succeeds and the returned text has
non-whitespace content, the body stores the stripped text. -/
lemma runBody_ok_nonempty (env : Env) (audio : List Nat) (text : String)
    (hw : env.write audio = WriteOutcome.ok)
    (ht : env.transcribe audio = TranscribeOutcome.ok text)
    (hs : pyStrip text ≠ "") :
    runBody env audio =
      { pathSet := true, transcript := pyStrip text, exc := none, modelCalled := true } := by
  have hne : text ≠ "" := ne_empty_of_pyStrip_ne_empty hs
  unfold runBody
  rw [hw, ht]
  have hcond : (text != "" && pyStrip text != "") = true := by
    simp [bne_iff_ne, hne, hs]
  dsimp only
  rw [if_pos hcond]

/-- When everything succeeds but the returned text strips to empty, the
body stores the empty transcript and raises nothing. -/
lemma runBody_ok_empty (env : Env) (audio : List Nat) (text : String)
    (hw : env.write audio = WriteOutcome.ok)
    (ht : env.transcribe audio = TranscribeOutcome.ok text)
    (hs : pyStrip text = "") :
    runBody env audio =
      { pathSet := true, transcript := "", exc := none, modelCalled := true } := by
  unfold runBody
  rw [hw, ht]
  have hcond : (text != "" && pyStrip text != "") = false := by
    simp [bne_iff_ne, hs]
  dsimp only
  rw [if_neg (by simp [hcond])]

/-- A failing body never updates the transcript past the clearing at entry. -/
lemma runBody_exc_transcript (env : Env) (audio : List Nat)
    (h : (runBody env audio).exc.isSome = true) :
    (runBody env audio).transcript = "" := by
  unfold runBody at h ⊢
  cases hw : env.write audio with
  | err m => rfl
  | ok =>
    rw [hw] at h
    cases ht : env.transcribe audio with
    | err m => rfl
    | ok text =>
      rw [ht] at h
      dsimp only at h ⊢
      by_cases hc : (text != "" && pyStrip text != "") = true
      · rw [if_pos hc] at h
        simp at h
      · rw [if_neg hc] at h
        simp at h

/-- Once the session is marked transcribed, the pipeline does nothing. -/
lemma pipelineStep_of_transcribed (s : SessionState) (rec : Option (List Nat))
    (env : Env) (h : s.transcribed = true) :
    pipelineStep s rec env = (s, none) := by
  cases rec with
  | none => rfl
  | some buf =>
    unfold pipelineStep
    rw [h]
    rfl

/-- On a pending session with a non-empty buffer the pipeline stores the
buffer, marks the session transcribed, runs the driver and installs its
transcript. -/
lemma pipelineStep_runs (s : SessionState) (buf : List Nat) (env : Env)
    (h1 : s.transcribed = false) (h2 : buf ≠ []) :
    pipelineStep s (some buf) env =
      ({ s with audio_data := some buf, transcribed := true,
                transcript := (process_and_transcribe_buffer env buf).transcript },
       some (process_and_transcribe_buffer env buf)) := by
  unfold pipelineStep
  rw [h1]
  cases buf with
  | nil => exact absurd rfl h2
  | cons a t => rfl

/-- C1 counterexample: the claim that a failed transcription leaves a
non-empty prior transcript untouched is false.  With prior transcript
"hello" and a failing `transcribe` call, the transcript after the driver
returns is empty, because line 157 clears it before the `try` block. -/
theorem C1_counterexample_prior_transcript_cleared :
    (driverOnState envTranscribeFails [1] sHello).fst.transcript ≠
      sHello.transcript := by
  decide

/-- C1 (amended): if the temp-file write or the model's `transcribe` call
raises, then after the driver returns the session transcript is the empty
string — the driver clears the transcript on entry (line 157), so the
prior value is not preserved — and an error message is surfaced to the
user via `st.error`. -/
theorem C1_failure_empties_transcript_and_reports (env : Env) (audio : List Nat)
    (s : SessionState) (h : (runBody env audio).exc.isSome = true) :
    (driverOnState env audio s).fst.transcript = "" ∧
    (driverOnState env audio s).snd.errorReported.isSome = true := by
  constructor
  · exact runBody_exc_transcript env audio h
  · show ((runBody env audio).exc.map
      (fun m => "Transcription error: " ++ m)).isSome = true
    cases hx : (runBody env audio).exc with
    | none =>
        rw [hx] at h
        simp at h
    | some m => rfl

/-- C1 witness: concrete failing run on a session with a non-empty prior
transcript. -/
theorem C1_witness :
    (runBody envTranscribeFails [1]).exc.isSome = true ∧
    ((driverOnState envTranscribeFails [1] sHello).fst.transcript = "" ∧
     (driverOnState envTranscribeFails [1] sHello).snd.errorReported.isSome = true) :=
  ⟨rfl, C1_failure_empties_transcript_and_reports envTranscribeFails [1] sHello rfl⟩

/-- C2 counterexample: the claim that the temporary file never exists after
the driver returns is false on the exit path where the write raises: the
file was created by `NamedTemporaryFile`, but `temp_audio_file_path` is
assigned only after the write (line 181), so the `finally` clause skips
the removal and the file remains on disk. -/
theorem C2_counterexample_orphaned_temp_file :
    (process_and_transcribe_buffer envWriteFails [1]).tempFileExists = true := rfl

/-- C2 (amended): whenever the write of the audio bytes to the temporary
file succeeds and the `os.remove` call succeeds, the temporary file does
not exist after the driver returns — in particular on successful
transcription, on an empty transcription result, and on an exception from
the model's `transcribe` call.  If the write itself raises, the path
variable is never assigned, cleanup is skipped, and the file is left on
disk; if the removal raises, the failure is swallowed and the file also
remains. -/
theorem C2_temp_file_removed_when_write_succeeds (env : Env) (audio : List Nat)
    (hw : env.write audio = WriteOutcome.ok)
    (hr : env.remove = RemoveOutcome.ok) :
    (process_and_transcribe_buffer env audio).tempFileExists = false := by
  have hp : (runBody env audio).pathSet = true := by
    unfold runBody
    rw [hw]
    cases ht : env.transcribe audio with
    | err m => rfl
    | ok text =>
        dsimp only
        split <;> rfl
  simp [process_and_transcribe_buffer, hp, hr]

/-- C2 witness: even when inference raises, the file is removed as long as
the write and the removal succeed. -/
theorem C2_witness :
    envTranscribeFails.write [1] = WriteOutcome.ok ∧
    envTranscribeFails.remove = RemoveOutcome.ok ∧
    (process_and_transcribe_buffer envTranscribeFails [1]).tempFileExists = false :=
  ⟨rfl, rfl, C2_temp_file_removed_when_write_succeeds envTranscribeFails [1] rfl rfl⟩

/-- C3: every exception raised by the temp-file write or by the model's
`transcribe` call — whatever the model's behaviour on the given audio
bytes — is caught inside the driver and reported as the user-visible
message `st.error(f"Transcription error: {e}")`; the driver returns
normally rather than propagating the exception. -/
theorem C3_exceptions_caught_and_reported (env : Env) (audio : List Nat)
    (m : String)
    (h : env.write audio = WriteOutcome.err m ∨
         (env.write audio = WriteOutcome.ok ∧
          env.transcribe audio = TranscribeOutcome.err m)) :
    (process_and_transcribe_buffer env audio).errorReported =
      some ("Transcription error: " ++ m) := by
  have he : (process_and_transcribe_buffer env audio).errorReported =
      ((runBody env audio).exc).map (fun x => "Transcription error: " ++ x) := rfl
  rw [he]
  rcases h with hw | ⟨hw, ht⟩
  · unfold runBody
    rw [hw]
    rfl
  · unfold runBody
    rw [hw, ht]
    rfl

/-- C3 witness: a raising write is caught and reported. -/
theorem C3_witness :
    (envWriteFails.write [1] = WriteOutcome.err "disk full" ∨
     (envWriteFails.write [1] = WriteOutcome.ok ∧
      envWriteFails.transcribe [1] = TranscribeOutcome.err "disk full")) ∧
    (process_and_transcribe_buffer envWriteFails [1]).errorReported =
      some ("Transcription error: " ++ "disk full") :=
  ⟨Or.inl rfl,
   C3_exceptions_caught_and_reported envWriteFails [1] "disk full" (Or.inl rfl)⟩

/-- C4: when the model returns text that is empty or whitespace-only, the
run is a success, not an error: no error is reported, the session
transcript is the empty string, and the transcribed flag is true after the
pipeline run. -/
theorem C4_whitespace_result_is_success (s : SessionState) (buf : List Nat)
    (env : Env) (text : String)
    (h1 : s.transcribed = false) (h2 : buf ≠ [])
    (h3 : env.write buf = WriteOutcome.ok)
    (h4 : env.transcribe buf = TranscribeOutcome.ok text)
    (h5 : pyStrip text = "") :
    (pipelineStep s (some buf) env).fst.transcribed = true ∧
    (pipelineStep s (some buf) env).fst.transcript = "" ∧
    (pipelineStep s (some buf) env).snd.map DriverOutcome.errorReported =
      some none := by
  have hb := runBody_ok_empty env buf text h3 h4 h5
  rw [pipelineStep_runs s buf env h1 h2]
  refine ⟨rfl, ?_, ?_⟩
  · show (runBody env buf).transcript = ""
    rw [hb]
  · show some (((runBody env buf).exc).map
      (fun m => "Transcription error: " ++ m)) = some none
    rw [hb]
    rfl

/-- C4 witness: whitespace-only model output on a fresh session. -/
theorem C4_witness :
    sFresh.transcribed = false ∧ ([1] : List Nat) ≠ [] ∧
    (envOk "  ").write [1] = WriteOutcome.ok ∧
    (envOk "  ").transcribe [1] = TranscribeOutcome.ok "  " ∧
    pyStrip "  " = "" ∧
    ((pipelineStep sFresh (some [1]) (envOk "  ")).fst.transcribed = true ∧
     (pipelineStep sFresh (some [1]) (envOk "  ")).fst.transcript = "" ∧
     (pipelineStep sFresh (some [1]) (envOk "  ")).snd.map
       DriverOutcome.errorReported = some none) :=
  ⟨rfl, by decide, rfl, rfl, by decide,
   C4_whitespace_result_is_success sFresh [1] (envOk "  ") "  "
     rfl (by decide) rfl rfl (by decide)⟩

/-- C5: once the transcribed flag is true, a pipeline rerun with any
recorded buffer present does not invoke the driver (hence never calls the
model's `transcribe` again). -/
theorem C5_no_reprocessing_when_transcribed (s : SessionState)
    (rec : Option (List Nat)) (env : Env) (h : s.transcribed = true) :
    (pipelineStep s rec env).snd = none := by
  rw [pipelineStep_of_transcribed s rec env h]

/-- C5 witness: a rerun on an already-transcribed session is a no-op. -/
theorem C5_witness :
    sDone.transcribed = true ∧
    (pipelineStep sDone (some [2]) (envOk "x")).snd = none :=
  ⟨rfl, C5_no_reprocessing_when_transcribed sDone (some [2]) (envOk "x") rfl⟩

/-- C6: resetting any session state yields `transcript = ""`,
`audio_data = None` and `transcribed = false`. -/
theorem C6_reset_clears_all_fields (s : SessionState) :
    (resetState s).transcript = "" ∧ (resetState s).audio_data = none ∧
    (resetState s).transcribed = false :=
  ⟨rfl, rfl, rfl⟩

/-- C7: calling the cached model loader twice with the same size
identifier returns the identical handle and performs no second underlying
load: the second call returns exactly the handle and cache of the first. -/
theorem C7_model_loader_memoized (c : ModelCache) (model_size : String) :
    load_whisper_model (load_whisper_model c model_size).snd model_size =
      load_whisper_model c model_size := by
  unfold load_whisper_model
  cases h : c.table.lookup model_size with
  | some v => simp [h]
  | none => simp [h]

/-- C8: when the model returns text with non-whitespace content, the
stored transcript is that text stripped of leading and trailing
whitespace: it equals the stripped text, is non-empty, and equals its own
stripped form. -/
theorem C8_nonempty_result_is_trimmed (env : Env) (audio : List Nat)
    (text : String)
    (h1 : env.write audio = WriteOutcome.ok)
    (h2 : env.transcribe audio = TranscribeOutcome.ok text)
    (h3 : pyStrip text ≠ "") :
    (process_and_transcribe_buffer env audio).transcript = pyStrip text ∧
    (process_and_transcribe_buffer env audio).transcript ≠ "" ∧
    pyStrip (process_and_transcribe_buffer env audio).transcript =
      (process_and_transcribe_buffer env audio).transcript := by
  have hb := runBody_ok_nonempty env audio text h1 h2 h3
  have ht : (process_and_transcribe_buffer env audio).transcript =
      (runBody env audio).transcript := rfl
  rw [ht, hb]
  exact ⟨rfl, h3, pyStrip_idem text⟩

/-- C8 witness: the model returns " hello " and the stored transcript is
"hello". -/
theorem C8_witness :
    (envOk " hello ").write [1] = WriteOutcome.ok ∧
    (envOk " hello ").transcribe [1] = TranscribeOutcome.ok " hello " ∧
    pyStrip " hello " ≠ "" ∧
    ((process_and_transcribe_buffer (envOk " hello ") [1]).transcript =
       pyStrip " hello " ∧
     (process_and_transcribe_buffer (envOk " hello ") [1]).transcript ≠ "" ∧
     pyStrip (process_and_transcribe_buffer (envOk " hello ") [1]).transcript =
       (process_and_transcribe_buffer (envOk " hello ") [1]).transcript) :=
  ⟨rfl, rfl, by decide,
   C8_nonempty_result_is_trimmed (envOk " hello ") [1] " hello "
     rfl rfl (by decide)⟩

/-- C9: starting from a pending session with a non-empty buffer, the
transcribed flag is true after the pipeline run for every driver
behaviour — including a failing one — so a later rerun never invokes the
driver again, and the transcript download is offered. -/
theorem C9_flag_set_before_driver (s : SessionState) (buf : List Nat)
    (env : Env) (rec2 : Option (List Nat)) (env2 : Env)
    (h1 : s.transcribed = false) (h2 : buf ≠ []) :
    (pipelineStep s (some buf) env).fst.transcribed = true ∧
    (pipelineStep (pipelineStep s (some buf) env).fst rec2 env2).snd = none ∧
    transcriptDownloadOffered (pipelineStep s (some buf) env).fst = true := by
  rw [pipelineStep_runs s buf env h1 h2]
  refine ⟨rfl, ?_, rfl⟩
  rw [pipelineStep_of_transcribed _ rec2 env2 rfl]

/-- C9 witness: a run whose write raises still marks the session
transcribed, blocks the rerun, and offers the download. -/
theorem C9_witness :
    sFresh.transcribed = false ∧ ([1] : List Nat) ≠ [] ∧
    ((pipelineStep sFresh (some [1]) envWriteFails).fst.transcribed = true ∧
     (pipelineStep (pipelineStep sFresh (some [1]) envWriteFails).fst
        (some [2]) (envOk "x")).snd = none ∧
     transcriptDownloadOffered
       (pipelineStep sFresh (some [1]) envWriteFails).fst = true) :=
  ⟨rfl, by decide,
   C9_flag_set_before_driver sFresh [1] envWriteFails (some [2]) (envOk "x")
     rfl (by decide)⟩

/-- C10: an empty recorded buffer is stored into `audio_data` but the
driver is never invoked and the transcribed flag stays false. -/
theorem C10_empty_buffer_skips_driver (s : SessionState) (env : Env)
    (h : s.transcribed = false) :
    (pipelineStep s (some []) env).fst.audio_data = some [] ∧
    (pipelineStep s (some []) env).fst.transcribed = false ∧
    (pipelineStep s (some []) env).snd = none := by
  unfold pipelineStep
  rw [h]
  exact ⟨rfl, rfl, rfl⟩

/-- C10 witness: an empty recording overwrites a previously stored buffer
without triggering transcription. -/
theorem C10_witness :
    sPriorAudio.transcribed = false ∧
    ((pipelineStep sPriorAudio (some []) (envOk "x")).fst.audio_data = some [] ∧
     (pipelineStep sPriorAudio (some []) (envOk "x")).fst.transcribed = false ∧
     (pipelineStep sPriorAudio (some []) (envOk "x")).snd = none) :=
  ⟨rfl, C10_empty_buffer_skips_driver sPriorAudio (envOk "x") rfl⟩

end OnionTalks
